import Mathlib

/-!
Verification of the luh3417 snapshot module (`src/luh3417/snapshot/__init__.py`,
`src/luh3417/snapshot/__main__.py`, `backup_database.py`) against its
natural-language specification.  Pure decision logic and command construction
are embedded as Lean functions; the effectful orchestration of `main` is
embedded as a step trace over a scenario describing which external operations
succeed.
-/

/-- Locations, as used by the snapshot module.  The class hierarchy itself
lives in `luh3417.luhfs`, which is not part of the sources at hand; this
inductive is modelled from the spec (kind Local with a path, kind Remote with
user, host, optional port, and path).  The `otherKind` constructor stands for
a value of the base `Location` type that is neither a `LocalLocation` nor an
`SshLocation` (for instance a future subclass); the dispatch in `_build_args`
branches on exactly those two concrete classes. -/
inductive Location where
  | local (path : String)
  | ssh (user host : String) (port : Option Nat) (path : String)
  | otherKind (path : String)
deriving DecidableEq, Repr

/-- Modelled from the spec: `SshManager.instance(user, host, port).get_args(args)`
(module `luh3417.luhssh` is not under the sources at hand).  Per spec section
4.2, it returns a vector that, run locally, executes `args` on the remote host
`user@host` (optionally with a non-default port), preserving argument
boundaries. -/
def sshWrapArgs (user host : String) (port : Option Nat) (args : List String) : List String :=
  ["ssh"] ++ (match port with | some p => ["-p", toString p] | none => []) ++
    [user ++ "@" ++ host] ++ args

/-- Embeds `_build_args` (`snapshot/__init__.py` lines 52-60): an
`isinstance` chain returning `args` unchanged for a `LocalLocation`, the
SSH-wrapped vector for an `SshLocation`, and — since the chain has no `else`
branch — Python's implicit `None` for anything else, here `Option.none`. -/
def _build_args : Location → List String → Option (List String)
  | Location.local _, args => some args
  | Location.ssh u h port _, args => some (sshWrapArgs u h port args)
  | Location.otherKind _, _ => none

/-- Modelled from the spec: `Location.rsync_path(trailing_slash)` (module
`luh3417.luhfs` is not under the sources at hand).  Per spec section 4.1,
a Local location renders its raw path and a Remote location renders
`user@host:path`; a trailing slash is appended when requested. -/
def rsync_path : Location → Bool → String
  | Location.local p, t => p ++ (if t then "/" else "")
  | Location.ssh u h _ p, t => u ++ "@" ++ h ++ ":" ++ p ++ (if t then "/" else "")
  | Location.otherKind p, t => p ++ (if t then "/" else "")

/-- Embeds the argument vector built by `rsync_files`
(`snapshot/__init__.py` lines 16-28): the fixed flags and exclusions, then
`--delete` only when `delete` is set, then the two endpoint strings obtained
from `rsync_path` with trailing-slash semantics. -/
def rsync_files_args (source target : Location) (delete : Bool) : List String :=
  (["rsync", "-rz", "--exclude=.git", "--exclude=.idea", "--exclude=*.swp",
      "--exclude=*.un~"] ++
    (if delete then ["--delete"] else [])) ++
    [rsync_path source true, rsync_path target true]

/-- Embeds `re.search("command not found", str(stderr))` from `sync_files`
(`snapshot/__init__.py` line 45): the pattern contains no regex
metacharacters, so the search succeeds exactly when the stderr text contains
the substring. -/
def hasCommandNotFound (stderr : String) : Bool :=
  decide ("command not found".data <:+: stderr.data)

/-- Action taken by `sync_files` once the rsync exit code and stderr are
known. -/
inductive SyncAction where
  | fallbackToTar (source target : Location) (delete : Bool)
  | raised (msg : String)
  | completed
deriving DecidableEq, Repr

/-- Embeds `sync_files` (`snapshot/__init__.py` lines 42-49) after
`target.ensure_exists_as_dir()` has succeeded and `rsync_files` has returned
`(rc, stderr)`: on a nonzero exit it raises unless the stderr matches
"command not found", in which case it calls
`copy_files_with_delete(source, target, delete)`. -/
def sync_files_after_rsync (source target : Location) (delete : Bool)
    (rc : Nat) (stderr : String) : SyncAction :=
  if rc ≠ 0 then
    if hasCommandNotFound stderr then SyncAction.fallbackToTar source target delete
    else SyncAction.raised ("Error while copying files: " ++ stderr)
  else SyncAction.completed

/-- Outcome of `copy_files` (`snapshot/__init__.py` lines 93-139), given the
exit codes and stderr texts of the three external processes it runs: the
`mkdir -p` at the target, the producing `tar -c` at the source, and the
consuming `tar -x` at the target.  Exactly one constructor is produced
because each check raises, aborting the function. -/
inductive CopyFilesOutcome where
  | mkdirFailed (msg : String)
  | readFailed (msg : String)
  | writeFailed (msg : String)
  | ok
deriving DecidableEq, Repr

/-- Prefix of at most `n` characters of a string; models the bounded
`stderr.read(1000)` reads. -/
def takePrefix (n : Nat) (s : String) : String :=
  String.mk (s.data.take n)

/-- Embeds the error selection of `copy_files` (`snapshot/__init__.py` lines
115-139): the mkdir exit is checked first (full stderr in the message), then
the source (producer) exit, then the target (consumer) exit, the latter two
with `stderr.read(1000)` modelled as a 1000-character prefix.  A raise aborts
the function, so at most one failure is ever reported. -/
def copy_files_outcome (source target : String) (mkdir_rc : Nat) (mkdir_stderr : String)
    (source_rc : Nat) (source_stderr : String) (target_rc : Nat) (target_stderr : String) :
    CopyFilesOutcome :=
  if mkdir_rc ≠ 0 then
    CopyFilesOutcome.mkdirFailed
      ("Error while creating target dir \"" ++ target ++ "\": " ++ mkdir_stderr)
  else if source_rc ≠ 0 then
    CopyFilesOutcome.readFailed
      ("Error while reading files from \"" ++ source ++ "\": " ++ takePrefix 1000 source_stderr)
  else if target_rc ≠ 0 then
    CopyFilesOutcome.writeFailed
      ("Error writing files to \"" ++ target ++ "\": " ++ takePrefix 1000 target_stderr)
  else CopyFilesOutcome.ok

/-- True exactly when the outcome is a failure naming the consumer
(`tar -x` / target) role. -/
def namesConsumer : CopyFilesOutcome → Bool
  | CopyFilesOutcome.writeFailed _ => true
  | _ => false

/-- Steps of `main` (`snapshot/__main__.py` lines 139-181) that can be
observed or can fail: the `doing(...)` blocks plus the maintenance-mode
calls. -/
inductive Ev where
  | parseConfig
  | dumpSettings
  | activate
  | dbDump
  | copyFiles
  | deactivate
  | writeArchive
deriving DecidableEq, Repr

/-- Result of a run of `main`: either a normal return, or a propagating
exception identified by the step that raised it, together with the earlier
exception it replaced, if any (Python attaches the latter as the implicit
exception context when a `finally` block raises during handling). -/
inductive MainResult where
  | ok
  | err (primaryEv : Ev) (ctx : Option Ev)
deriving DecidableEq, Repr

/-- Which external operation succeeds in a given run of `main`; one Boolean
per fallible step. -/
structure Scenario where
  maintenance_mode : Bool
  parse_config_ok : Bool
  dump_settings_ok : Bool
  activate_ok : Bool
  db_dump_ok : Bool
  copy_files_ok : Bool
  deactivate_ok : Bool
  write_archive_ok : Bool
deriving DecidableEq, Repr

/-- Embeds the control flow of `main` (`snapshot/__main__.py` lines 139-181)
as the list of steps invoked, in order, together with the final result:
configuration parse, settings dump, then (when maintenance mode is
requested) activation before the `try` block; the `try` block runs the
database dump and then the file copy; the `finally` block runs deactivation
when maintenance mode is requested; the archive is written only when nothing
raised.  A step that fails still appears in the trace (it was invoked); an
exception raised in the `finally` block replaces the `try` block exception
as the propagating one, keeping it as context. -/
def mainRun (s : Scenario) : List Ev × MainResult :=
  if !s.parse_config_ok then ([Ev.parseConfig], MainResult.err Ev.parseConfig none)
  else if !s.dump_settings_ok then
    ([Ev.parseConfig, Ev.dumpSettings], MainResult.err Ev.dumpSettings none)
  else if s.maintenance_mode && !s.activate_ok then
    ([Ev.parseConfig, Ev.dumpSettings, Ev.activate], MainResult.err Ev.activate none)
  else
    let pre := [Ev.parseConfig, Ev.dumpSettings] ++
      (if s.maintenance_mode then [Ev.activate] else [])
    let tryTrace := if s.db_dump_ok then [Ev.dbDump, Ev.copyFiles] else [Ev.dbDump]
    let tryErr : Option Ev :=
      if !s.db_dump_ok then some Ev.dbDump
      else if !s.copy_files_ok then some Ev.copyFiles
      else none
    let t1 := pre ++ tryTrace ++ (if s.maintenance_mode then [Ev.deactivate] else [])
    let finErr : Option Ev :=
      if s.maintenance_mode && !s.deactivate_ok then some Ev.deactivate else none
    match finErr with
    | some fe => (t1, MainResult.err fe tryErr)
    | none =>
      match tryErr with
      | some te => (t1, MainResult.err te none)
      | none =>
        if s.write_archive_ok then (t1 ++ [Ev.writeArchive], MainResult.ok)
        else (t1 ++ [Ev.writeArchive], MainResult.err Ev.writeArchive none)

/-- The propagating exception of a run, if any. -/
def primaryCause (r : MainResult) : Option Ev :=
  match r with
  | MainResult.ok => none
  | MainResult.err e _ => some e

/-- The steps invoked strictly between the activation and the deactivation
call in a trace. -/
def betweenBracket (t : List Ev) : List Ev :=
  ((t.dropWhile (fun e => e != Ev.activate)).drop 1).takeWhile (fun e => e != Ev.deactivate)

/-- Modelled from the spec: `Location.child(name)` (module `luh3417.luhfs` is
not under the sources at hand).  Per spec section 4.1, the path is joined
with a single separator and kind, user, host and port are preserved. -/
def Location.child : Location → String → Location
  | Location.local p, n => Location.local (p ++ "/" ++ n)
  | Location.ssh u h port p, n => Location.ssh u h port (p ++ "/" ++ n)
  | Location.otherKind p, n => Location.otherKind (p ++ "/" ++ n)

/-- Field lookup for the two replacement fields used by the snapshot file
name templates. -/
def lookupField (base time : List Char) (field : List Char) : Option (List Char) :=
  if field = "base".data then some base
  else if field = "time".data then some time
  else none

/-- Scanner for the subset of Python `str.format` exercised by
`make_dump_file_name`: replacement fields `\x7bbase\x7d` and `\x7btime\x7d`
without conversions or format specs.  The first argument is `none` outside a
replacement field and `some acc` inside one, `acc` being the field name read
so far; an unknown field or an unbalanced brace yields `none` (Python raises
there). -/
def goFmt (base time : List Char) : Option (List Char) → List Char → Option (List Char)
  | none, [] => some []
  | some _, [] => none
  | none, c :: rest =>
    if c = '\x7b' then goFmt base time (some []) rest
    else if c = '\x7d' then none
    else (goFmt base time none rest).map (fun r => c :: r)
  | some acc, c :: rest =>
    if c = '\x7d' then
      match lookupField base time acc with
      | some v => (goFmt base time none rest).map (fun r => v ++ r)
      | none => none
    else goFmt base time (some (acc ++ [c])) rest

/-- Substitution of `base` and `time` into a file name template, as done by
`args.file_name_template.format(base=..., time=...)` in
`make_dump_file_name`. -/
def pyFormat (template base time : String) : Option String :=
  (goFmt base.data time.data none template.data).map String.mk

/-- Embeds `make_dump_file_name` (`snapshot/__main__.py` lines 109-121, and
identically `backup_database.py` lines 93-105): the base name defaults to the
configuration db_name when `--snapshot-base-name` is absent or empty (Python
falsiness), the template is formatted with `base` and with the ISO rendering
of `now` plus a trailing "Z", and the result is a child of the backup
directory. -/
def make_dump_file_name (snapshot_base_name : Option String) (file_name_template : String)
    (db_name : String) (backup_dir : Location) (nowIso : String) : Option Location :=
  let base_name := match snapshot_base_name with
    | none => db_name
    | some b => if b = "" then db_name else b
  (pyFormat file_name_template base_name (nowIso ++ "Z")).map backup_dir.child

/-- Embeds the timestamp data flow of `main` (`snapshot/__main__.py` lines
146 and 174-178): `now = datetime.utcnow()` is captured once, at operation
start (clock tick 0), before any step runs; the archive location is computed
at the archive-write step, which happens at some later tick `writeTick`, but
from the captured `now` — the clock is not consulted again.  `clock k`
abstracts the ISO rendering the UTC clock would give at tick `k`. -/
def main_archive_location (clock : Nat → String) (writeTick : Nat)
    (snapshot_base_name : Option String) (file_name_template db_name : String)
    (backup_dir : Location) : Option Location :=
  let now := clock 0
  let _ := writeTick
  make_dump_file_name snapshot_base_name file_name_template db_name backup_dir now

/-- Replacement pass of `re.sub(".gz", repl, s)` on the character list of
`s`: the unescaped dot matches any character except a newline, so each
leftmost non-overlapping occurrence of (any non-newline character, then "gz")
is replaced by `repl`; replacement text is not rescanned. -/
def goSub (repl : List Char) : List Char → List Char
  | c :: 'g' :: 'z' :: rest =>
    if c = '\n' then c :: goSub repl ('g' :: 'z' :: rest)
    else repl ++ goSub repl rest
  | c :: rest => c :: goSub repl rest
  | [] => []

/-- Embeds `re.sub(".gz", repl, s)` as used in `parse_args`
(`snapshot/__main__.py` lines 96-104 and `backup_database.py` lines 80-88). -/
def reSubAnyGz (repl s : String) : String :=
  String.mk (goSub repl.data s.data)

/-- Embeds the compression-mode handling at the end of `parse_args`
(`snapshot/__main__.py` lines 95-106, identically `backup_database.py` lines
79-90): for bzip2, lzip and xz the file name template is rewritten with
`re.sub(".gz", <new extension>, ...)` and the backup directory compression
mode is set (second component); for any other mode — gzip is the only other
accepted choice — the template is untouched and no compression mode is set. -/
def apply_compression_mode (compression_mode file_name_template : String) :
    String × Option String :=
  if compression_mode = "bzip2" then
    (reSubAnyGz ".bz2" file_name_template, some "bzip2")
  else if compression_mode = "lzip" then
    (reSubAnyGz ".lz" file_name_template, some "lzip")
  else if compression_mode = "xz" then
    (reSubAnyGz ".xz" file_name_template, some "xz")
  else (file_name_template, none)

/-- Discriminates the two Location kinds handled by the `isinstance` chain of
`_build_args`. -/
def handledByBuildArgs : Location → Bool
  | Location.local _ => true
  | Location.ssh _ _ _ _ => true
  | Location.otherKind _ => false

theorem str_data_append (a b : String) : (a ++ b).data = a.data ++ b.data := rfl

theorem str_ext {a b : String} (h : a.data = b.data) : a = b := by
  cases a; cases b; exact congrArg String.mk h

/-- C1: inside `sync_files`, a nonzero rsync exit falls back to the
tar-stream strategy (`copy_files_with_delete`) exactly when the captured
stderr contains the substring "command not found"; any other nonzero exit
raises an error carrying the captured stderr and performs no fallback. -/
theorem c1_rsync_fallback_iff_command_not_found (source target : Location) (delete : Bool)
    (rc : Nat) (stderr : String) (h : rc ≠ 0) :
    (sync_files_after_rsync source target delete rc stderr
        = SyncAction.fallbackToTar source target delete
      ↔ hasCommandNotFound stderr = true)
    ∧ (hasCommandNotFound stderr = false →
        sync_files_after_rsync source target delete rc stderr
          = SyncAction.raised ("Error while copying files: " ++ stderr)) := by
  unfold sync_files_after_rsync
  rw [if_pos h]
  cases hc : hasCommandNotFound stderr <;> simp [hc]

/-- Witness for C1 at a concrete failing rsync run whose stderr reports a
missing binary. -/
theorem c1_witness :
    (sync_files_after_rsync (Location.local "/var/www") (Location.local "/backup") true 127
        "bash: rsync: command not found"
        = SyncAction.fallbackToTar (Location.local "/var/www") (Location.local "/backup") true
      ↔ hasCommandNotFound "bash: rsync: command not found" = true)
    ∧ (hasCommandNotFound "bash: rsync: command not found" = false →
        sync_files_after_rsync (Location.local "/var/www") (Location.local "/backup") true 127
          "bash: rsync: command not found"
          = SyncAction.raised
              ("Error while copying files: " ++ "bash: rsync: command not found")) :=
  c1_rsync_fallback_iff_command_not_found (Location.local "/var/www") (Location.local "/backup")
    true 127 "bash: rsync: command not found" (by decide)

/-- C10: `_build_args` returns the command vector unchanged for a local
location, the SSH-wrapped vector for an SSH location, and `None` for any
location of any other kind, since the type dispatch has no defaulting
branch. -/
theorem c10_build_args_dispatch (args : List String) :
    (∀ p, _build_args (Location.local p) args = some args)
    ∧ (∀ u h port p,
        _build_args (Location.ssh u h port p) args = some (sshWrapArgs u h port args))
    ∧ (∀ p, _build_args (Location.otherKind p) args = none)
    ∧ (∀ loc, (_build_args loc args).isSome = handledByBuildArgs loc) := by
  refine ⟨fun _ => rfl, fun _ _ _ _ => rfl, fun _ => rfl, fun loc => ?_⟩
  rcases loc with p | ⟨u, h, port, p⟩ | p <;> rfl

/-- Witness for C10 at a concrete command vector. -/
theorem c10_witness :
    (∀ p, _build_args (Location.local p) ["wp", "--quiet"] = some ["wp", "--quiet"])
    ∧ (∀ u h port p, _build_args (Location.ssh u h port p) ["wp", "--quiet"]
        = some (sshWrapArgs u h port ["wp", "--quiet"]))
    ∧ (∀ p, _build_args (Location.otherKind p) ["wp", "--quiet"] = none)
    ∧ (∀ loc, (_build_args loc ["wp", "--quiet"]).isSome = handledByBuildArgs loc) :=
  c10_build_args_dispatch ["wp", "--quiet"]

/-- C3 counterexample: at a piped transfer where both sides exit nonzero, the
producer check comes first and its raise aborts `copy_files`, so the single
surfaced failure names the producer, not the consumer, and no second error is
reported. -/
theorem c3_counterexample :
    copy_files_outcome "/src" "/dst" 0 "" 2 "tar: producer failed" 2 "tar: consumer failed"
      = CopyFilesOutcome.readFailed "Error while reading files from \"/src\": tar: producer failed"
    ∧ namesConsumer
        (copy_files_outcome "/src" "/dst" 0 "" 2 "tar: producer failed" 2 "tar: consumer failed")
      = false := by
  constructor <;> decide

/-- C3 amended: when the consumer side of the pipe exits nonzero and the
producer side exited zero, a failure naming the consumer role with a bounded
stderr prefix is surfaced; when the producer side is simultaneously nonzero,
only the producer failure is raised — the consumer failure is discarded, not
reported as a second error. -/
theorem c3_amended_consumer_error (source target source_stderr target_stderr : String)
    (source_rc target_rc : Nat) (ht : target_rc ≠ 0) :
    (source_rc = 0 →
      copy_files_outcome source target 0 "" source_rc source_stderr target_rc target_stderr
        = CopyFilesOutcome.writeFailed
            ("Error writing files to \"" ++ target ++ "\": " ++ takePrefix 1000 target_stderr))
    ∧ (source_rc ≠ 0 →
      copy_files_outcome source target 0 "" source_rc source_stderr target_rc target_stderr
        = CopyFilesOutcome.readFailed
            ("Error while reading files from \"" ++ source ++ "\": " ++ takePrefix 1000 source_stderr)
      ∧ namesConsumer
          (copy_files_outcome source target 0 "" source_rc source_stderr target_rc target_stderr)
        = false) := by
  constructor
  · intro hs
    unfold copy_files_outcome
    rw [if_neg (by simp), if_neg (by simp [hs]), if_pos ht]
  · intro hs
    have hout : copy_files_outcome source target 0 "" source_rc source_stderr target_rc
        target_stderr
      = CopyFilesOutcome.readFailed
          ("Error while reading files from \"" ++ source ++ "\": " ++ takePrefix 1000 source_stderr) := by
      unfold copy_files_outcome
      rw [if_neg (by simp), if_pos hs]
    exact ⟨hout, by rw [hout]; rfl⟩

/-- Witness for C3 at a concrete pipe where only the consumer failed. -/
theorem c3_witness :
    ((0 : Nat) = 0 →
      copy_files_outcome "/w" "/b" 0 "" 0 "" 3 "disk full"
        = CopyFilesOutcome.writeFailed
            ("Error writing files to \"" ++ "/b" ++ "\": " ++ takePrefix 1000 "disk full"))
    ∧ ((0 : Nat) ≠ 0 →
      copy_files_outcome "/w" "/b" 0 "" 0 "" 3 "disk full"
        = CopyFilesOutcome.readFailed
            ("Error while reading files from \"" ++ "/w" ++ "\": " ++ takePrefix 1000 "")
      ∧ namesConsumer (copy_files_outcome "/w" "/b" 0 "" 0 "" 3 "disk full") = false) :=
  c3_amended_consumer_error "/w" "/b" "" "disk full" 0 3 (by decide)

/-- C2: in a maintenance-mode run of `main` that reaches the activation
call, whenever the activation succeeds the deactivation call is invoked
exactly once afterwards, whatever happens to the bracketed steps; and when
the activation call itself fails, the run stops with the activation error —
its trace ends at the activation step, so deactivation is never invoked. -/
theorem c2_maintenance_bracket (s : Scenario) (hm : s.maintenance_mode = true)
    (hpc : s.parse_config_ok = true) (hds : s.dump_settings_ok = true) :
    (s.activate_ok = true →
      ((mainRun s).1.count Ev.deactivate = 1
        ∧ (mainRun s).1.indexOf Ev.activate < (mainRun s).1.indexOf Ev.deactivate))
    ∧ (s.activate_ok = false →
      ((mainRun s).1 = [Ev.parseConfig, Ev.dumpSettings, Ev.activate]
        ∧ Ev.deactivate ∉ (mainRun s).1
        ∧ (mainRun s).2 = MainResult.err Ev.activate none)) := by
  obtain ⟨m, pc, ds, ao, dd, cf, da, wa⟩ := s
  refine ⟨fun ha => ?_, fun ha => ?_⟩ <;>
    cases m <;> cases pc <;> cases ds <;> cases ao <;> cases dd <;> cases cf <;> cases da <;>
      cases wa <;>
    first
      | exact absurd hm (by decide)
      | exact absurd hpc (by decide)
      | exact absurd hds (by decide)
      | exact absurd ha (by decide)
      | decide

/-- Witness for C2 at a concrete maintenance-mode run in which the file copy
fails: deactivation still runs exactly once. -/
theorem c2_witness :
    ((Scenario.mk true true true true true false true true).activate_ok = true →
      ((mainRun (Scenario.mk true true true true true false true true)).1.count Ev.deactivate = 1
        ∧ (mainRun (Scenario.mk true true true true true false true true)).1.indexOf Ev.activate
          < (mainRun (Scenario.mk true true true true true false true true)).1.indexOf
              Ev.deactivate))
    ∧ ((Scenario.mk true true true true true false true true).activate_ok = false →
      ((mainRun (Scenario.mk true true true true true false true true)).1
          = [Ev.parseConfig, Ev.dumpSettings, Ev.activate]
        ∧ Ev.deactivate ∉ (mainRun (Scenario.mk true true true true true false true true)).1
        ∧ (mainRun (Scenario.mk true true true true true false true true)).2
            = MainResult.err Ev.activate none)) :=
  c2_maintenance_bracket (Scenario.mk true true true true true false true true) rfl rfl rfl

/-- C4 counterexample: in a run where the file copy fails and the subsequent
deactivation also fails, the propagating exception of `main` is the
deactivation failure — the transfer failure survives only as its implicit
context, so the transfer failure is not the primary cause, contrary to the
claim. -/
theorem c4_counterexample :
    primaryCause (mainRun (Scenario.mk true true true true true false false true)).2
      = some Ev.deactivate
    ∧ primaryCause (mainRun (Scenario.mk true true true true true false false true)).2
      ≠ some Ev.copyFiles
    ∧ (mainRun (Scenario.mk true true true true true false false true)).2
      = MainResult.err Ev.deactivate (some Ev.copyFiles) := by
  decide

/-- C4 amended: when a bracketed step fails and the deactivation call also
fails, both failures are retained in the propagated exception — the
deactivation failure as the primary cause with the transfer failure as its
implicit context — so the deactivation failure masks the transfer failure
rather than the other way round. -/
theorem c4_amended_deactivate_masks (cf wa : Bool) :
    (mainRun (Scenario.mk true true true true true false false wa)).2
      = MainResult.err Ev.deactivate (some Ev.copyFiles)
    ∧ (mainRun (Scenario.mk true true true true false cf false wa)).2
      = MainResult.err Ev.deactivate (some Ev.dbDump) := by
  cases cf <;> cases wa <;> decide

/-- C5 counterexample: in the plain successful run of `main`, the database
dump step is invoked before the file transfer step, contradicting the claimed
order (configuration read, file transfer, database dump, archive build). -/
theorem c5_counterexample :
    (mainRun (Scenario.mk false true true true true true true true)).2 = MainResult.ok
    ∧ (mainRun (Scenario.mk false true true true true true true true)).1
      = [Ev.parseConfig, Ev.dumpSettings, Ev.dbDump, Ev.copyFiles, Ev.writeArchive]
    ∧ ¬((mainRun (Scenario.mk false true true true true true true true)).1.indexOf Ev.copyFiles
        < (mainRun (Scenario.mk false true true true true true true true)).1.indexOf Ev.dbDump) := by
  decide

/-- C5 amended: in every run of `main` the operations are invoked strictly in
the sequence configuration read, then database dump, then file transfer, then
archive build — each later step only after the earlier ones, later steps
skipped once a step fails. -/
theorem c5_amended_order (s : Scenario) :
    ((mainRun s).1.filter
        (fun e => [Ev.parseConfig, Ev.dbDump, Ev.copyFiles, Ev.writeArchive].contains e)).isPrefixOf
      [Ev.parseConfig, Ev.dbDump, Ev.copyFiles, Ev.writeArchive] = true
    ∧ (mainRun (Scenario.mk false true true true true true true true)).1
      = [Ev.parseConfig, Ev.dumpSettings, Ev.dbDump, Ev.copyFiles, Ev.writeArchive] := by
  obtain ⟨m, pc, ds, ao, dd, cf, da, wa⟩ := s
  refine ⟨?_, by decide⟩
  cases m <;> cases pc <;> cases ds <;> cases ao <;> cases dd <;> cases cf <;> cases da <;>
    cases wa <;> decide

/-- C6 counterexample: in the successful maintenance-mode run, the database
dump executes between activation and deactivation, contradicting the claim
that the bracket encloses only the file transfer. -/
theorem c6_counterexample :
    Ev.activate ∈ (mainRun (Scenario.mk true true true true true true true true)).1
    ∧ betweenBracket (mainRun (Scenario.mk true true true true true true true true)).1
      = [Ev.dbDump, Ev.copyFiles]
    ∧ Ev.dbDump ∈ betweenBracket (mainRun (Scenario.mk true true true true true true true true)).1 := by
  decide

/-- C6 amended: in every maintenance-mode run of `main` that reaches the
`try` block, the maintenance bracket encloses both the database dump and the
file transfer — the steps invoked strictly between activation and
deactivation are exactly the database dump followed, when the dump succeeds,
by the file copy. -/
theorem c6_amended_bracket_encloses_dump (dd cf da wa : Bool) :
    betweenBracket (mainRun (Scenario.mk true true true true dd cf da wa)).1
      = (if dd then [Ev.dbDump, Ev.copyFiles] else [Ev.dbDump]) := by
  cases dd <;> cases cf <;> cases da <;> cases wa <;> decide

/-- Every rsync endpoint string is rendered with a trailing slash. -/
theorem rsync_path_trailing (loc : Location) : ∃ p, rsync_path loc true = p ++ "/" := by
  rcases loc with p | ⟨u, h, port, p⟩ | p
  · exact ⟨p, rfl⟩
  · exact ⟨u ++ "@" ++ h ++ ":" ++ p, rfl⟩
  · exact ⟨p, rfl⟩

/-- A string ending in a slash is not the literal `--delete`. -/
theorem slash_ne_delete (p : String) : p ++ "/" ≠ "--delete" := by
  intro he
  have h1 : (p ++ "/").data.getLast? = some '/' := by
    rw [str_data_append]
    exact List.getLast?_concat _
  rw [he] at h1
  exact absurd h1 (by decide)

/-- An `--exclude=`-prefixed string is longer than any of the plain rsync
flags. -/
theorem exclude_ne_short (e s : String) (hs : s.data.length < 10) : "--exclude=" ++ e ≠ s := by
  intro he
  have hd : ("--exclude=" : String).data.length + e.data.length = s.data.length := by
    rw [← List.length_append, ← str_data_append, he]
  have h10 : ("--exclude=" : String).data.length = 10 := by decide
  omega

/-- Cancelling a shared prefix of two concatenated strings. -/
theorem str_append_left_cancel {a b c : String} (h : a ++ b = a ++ c) : b = c := by
  apply str_ext
  have hd := congrArg String.data h
  rw [str_data_append, str_data_append] at hd
  exact List.append_cancel_left hd

/-- C7 counterexample: for a transfer whose caller supplied the exclude
pattern `cache`, the rsync command built by `rsync_files` does not contain
`--exclude=cache` — the function accepts no caller excludes, and its exclude
flags are exactly the four fixed ones. -/
theorem c7_counterexample :
    "--exclude=cache" ∉ rsync_files_args (Location.local "/var/www") (Location.local "/backup") false
    ∧ (rsync_files_args (Location.local "/var/www") (Location.local "/backup") false).filter
        (fun a => "--exclude=".data.isPrefixOf a.data)
      = ["--exclude=.git", "--exclude=.idea", "--exclude=*.swp", "--exclude=*.un~"] := by
  constructor <;> decide

/-- C7 amended: for every source, target and delete flag, the rsync command
contains exactly the four fixed exclusions (`.git`, `.idea`, `*.swp`,
`*.un~`) and no caller-supplied excludes — `rsync_files` takes none — and
contains `--delete` exactly when deletion semantics were requested. -/
theorem c7_amended_fixed_excludes (source target : Location) (delete : Bool) :
    rsync_files_args source target delete
      = (["rsync", "-rz", "--exclude=.git", "--exclude=.idea", "--exclude=*.swp",
            "--exclude=*.un~"] ++ (if delete then ["--delete"] else [])) ++
          [rsync_path source true, rsync_path target true]
    ∧ ("--delete" ∈ rsync_files_args source target delete ↔ delete = true)
    ∧ (∀ e : String, ("--exclude=" ++ e) ∈ rsync_files_args source target delete →
        e ∈ [".git", ".idea", "*.swp", "*.un~"]
        ∨ ("--exclude=" ++ e) = rsync_path source true
        ∨ ("--exclude=" ++ e) = rsync_path target true) := by
  obtain ⟨ps, hps⟩ := rsync_path_trailing source
  obtain ⟨pt, hpt⟩ := rsync_path_trailing target
  have hfalse : rsync_files_args source target false
      = ["rsync", "-rz", "--exclude=.git", "--exclude=.idea", "--exclude=*.swp",
          "--exclude=*.un~", ps ++ "/", pt ++ "/"] := by
    simp [rsync_files_args, hps, hpt]
  have htrue : rsync_files_args source target true
      = ["rsync", "-rz", "--exclude=.git", "--exclude=.idea", "--exclude=*.swp",
          "--exclude=*.un~", "--delete", ps ++ "/", pt ++ "/"] := by
    simp [rsync_files_args, hps, hpt]
  refine ⟨rfl, ?_, ?_⟩
  · cases delete with
    | true =>
      rw [htrue]
      constructor
      · intro _; rfl
      · intro _
        simp only [List.mem_cons]
        tauto
    | false =>
      rw [hfalse]
      constructor
      · intro hmem
        exfalso
        simp only [List.mem_cons, List.not_mem_nil, or_false] at hmem
        rcases hmem with h | h | h | h | h | h | h | h
        · exact absurd h (by decide)
        · exact absurd h (by decide)
        · exact absurd h (by decide)
        · exact absurd h (by decide)
        · exact absurd h (by decide)
        · exact absurd h (by decide)
        · exact slash_ne_delete ps h.symm
        · exact slash_ne_delete pt h.symm
      · intro hf
        exact absurd hf (by decide)
  · intro e he
    cases delete with
    | false =>
      rw [hfalse] at he
      simp only [List.mem_cons, List.not_mem_nil, or_false] at he
      rcases he with h | h | h | h | h | h | h | h
      · exact absurd h (exclude_ne_short e "rsync" (by decide))
      · exact absurd h (exclude_ne_short e "-rz" (by decide))
      · left
        have h3 := str_append_left_cancel (b := e) (c := ".git") h
        subst h3
        decide
      · left
        have h3 := str_append_left_cancel (b := e) (c := ".idea") h
        subst h3
        decide
      · left
        have h3 := str_append_left_cancel (b := e) (c := "*.swp") h
        subst h3
        decide
      · left
        have h3 := str_append_left_cancel (b := e) (c := "*.un~") h
        subst h3
        decide
      · right; left
        rw [hps]
        exact h
      · right; right
        rw [hpt]
        exact h
    | true =>
      rw [htrue] at he
      simp only [List.mem_cons, List.not_mem_nil, or_false] at he
      rcases he with h | h | h | h | h | h | h | h | h
      · exact absurd h (exclude_ne_short e "rsync" (by decide))
      · exact absurd h (exclude_ne_short e "-rz" (by decide))
      · left
        have h3 := str_append_left_cancel (b := e) (c := ".git") h
        subst h3
        decide
      · left
        have h3 := str_append_left_cancel (b := e) (c := ".idea") h
        subst h3
        decide
      · left
        have h3 := str_append_left_cancel (b := e) (c := "*.swp") h
        subst h3
        decide
      · left
        have h3 := str_append_left_cancel (b := e) (c := "*.un~") h
        subst h3
        decide
      · exact absurd h (exclude_ne_short e "--delete" (by decide))
      · right; left
        rw [hps]
        exact h
      · right; right
        rw [hpt]
        exact h

/-- Witness for C7 at a concrete remote-to-local transfer with deletion. -/
theorem c7_witness :
    rsync_files_args (Location.ssh "root" "example.com" none "/var/www") (Location.local "/backup")
        true
      = (["rsync", "-rz", "--exclude=.git", "--exclude=.idea", "--exclude=*.swp",
            "--exclude=*.un~"] ++ (if true then ["--delete"] else [])) ++
          [rsync_path (Location.ssh "root" "example.com" none "/var/www") true,
            rsync_path (Location.local "/backup") true]
    ∧ ("--delete" ∈ rsync_files_args (Location.ssh "root" "example.com" none "/var/www")
          (Location.local "/backup") true ↔ true = true)
    ∧ (∀ e : String, ("--exclude=" ++ e) ∈ rsync_files_args
          (Location.ssh "root" "example.com" none "/var/www") (Location.local "/backup") true →
        e ∈ [".git", ".idea", "*.swp", "*.un~"]
        ∨ ("--exclude=" ++ e)
            = rsync_path (Location.ssh "root" "example.com" none "/var/www") true
        ∨ ("--exclude=" ++ e) = rsync_path (Location.local "/backup") true) :=
  c7_amended_fixed_excludes (Location.ssh "root" "example.com" none "/var/www")
    (Location.local "/backup") true

/-- Formatting the default file name template substitutes the base name and
the time string in place. -/
theorem pyFormat_default_template (b t : String) :
    pyFormat "{base}_{time}.tar.gz" b t = some (b ++ "_" ++ t ++ ".tar.gz") := by
  have h1 : pyFormat "{base}_{time}.tar.gz" b t
      = some (String.mk (b.data ++ '_' :: (t.data ++ ".tar.gz".data))) := rfl
  rw [h1]
  congr 1
  apply str_ext
  show b.data ++ '_' :: (t.data ++ ".tar.gz".data)
      = ((b ++ "_") ++ t).data ++ ".tar.gz".data
  rw [str_data_append, str_data_append]
  simp [List.append_assoc]

/-- C8: the archive name of a run of `main` is obtained by substituting
base — defaulting to the configuration db_name when no base was given or the
given base is empty — and the ISO rendering of the UTC timestamp captured at
operation start with a trailing "Z" appended into the template, and the
result names a child Location of the backup directory; the clock at
archive-write time is never consulted. -/
theorem c8_archive_name (clock clock2 : Nat → String) (wt wt2 : Nat)
    (h : clock 0 = clock2 0) (sbn : Option String) (tpl db : String) (dir : Location) :
    main_archive_location clock wt sbn tpl db dir
      = main_archive_location clock2 wt2 sbn tpl db dir
    ∧ main_archive_location clock wt (some "") tpl db dir
      = main_archive_location clock wt none tpl db dir
    ∧ main_archive_location clock wt none "{base}_{time}.tar.gz" db dir
      = some (dir.child (db ++ "_" ++ clock 0 ++ "Z.tar.gz"))
    ∧ (∀ loc, main_archive_location clock wt sbn tpl db dir = some loc →
        ∃ name, loc = dir.child name) := by
  refine ⟨?_, rfl, ?_, ?_⟩
  · unfold main_archive_location
    rw [h]
  · show (pyFormat "{base}_{time}.tar.gz" db (clock 0 ++ "Z")).map dir.child = _
    have hstr : (db ++ "_" ++ (clock 0 ++ "Z") ++ ".tar.gz" : String)
        = db ++ "_" ++ clock 0 ++ "Z.tar.gz" := by
      apply str_ext
      rw [str_data_append, str_data_append, str_data_append, str_data_append, str_data_append]
      simp [List.append_assoc]
    rw [pyFormat_default_template, Option.map_some', hstr]
  · intro loc hl
    simp only [main_archive_location, make_dump_file_name] at hl
    rw [Option.map_eq_some'] at hl
    obtain ⟨a, -, ha⟩ := hl
    exact ⟨a, ha.symm⟩

/-- Witness for C8 at a concrete start timestamp, with a write-time clock
that differs from the start-time clock. -/
theorem c8_witness :
    main_archive_location (fun _ => "2024-01-02T03:04:05") 7 none "{base}_{time}.tar.gz"
        "wp_demo" (Location.local "/backups")
      = main_archive_location (fun k => if k = 0 then "2024-01-02T03:04:05" else "2099") 9 none
          "{base}_{time}.tar.gz" "wp_demo" (Location.local "/backups")
    ∧ main_archive_location (fun _ => "2024-01-02T03:04:05") 7 (some "") "{base}_{time}.tar.gz"
        "wp_demo" (Location.local "/backups")
      = main_archive_location (fun _ => "2024-01-02T03:04:05") 7 none "{base}_{time}.tar.gz"
          "wp_demo" (Location.local "/backups")
    ∧ main_archive_location (fun _ => "2024-01-02T03:04:05") 7 none "{base}_{time}.tar.gz"
        "wp_demo" (Location.local "/backups")
      = some ((Location.local "/backups").child
          ("wp_demo" ++ "_" ++ (fun (_ : Nat) => "2024-01-02T03:04:05") 0 ++ "Z.tar.gz"))
    ∧ (∀ loc, main_archive_location (fun _ => "2024-01-02T03:04:05") 7 none
          "{base}_{time}.tar.gz" "wp_demo" (Location.local "/backups") = some loc →
        ∃ name, loc = (Location.local "/backups").child name) :=
  c8_archive_name (fun _ => "2024-01-02T03:04:05")
    (fun k => if k = 0 then "2024-01-02T03:04:05" else "2099") 7 9 (by decide) none
    "{base}_{time}.tar.gz" "wp_demo" (Location.local "/backups")

/-- C9: for the compression modes bzip2, lzip and xz, `parse_args` rewrites
the file name template by replacing every leftmost match of the regular
expression ".gz" — any non-newline character followed by "gz", the dot being
unescaped — with the new extension, so a template containing "logz" has that
inner match replaced too, not only a literal ".gz" suffix; for mode gzip the
template is left unchanged and no compression mode is set on the backup
directory. -/
theorem c9_gz_rewrite (tpl : String) (c : Char) (h : c ≠ '\n') :
    apply_compression_mode "gzip" tpl = (tpl, none)
    ∧ apply_compression_mode "bzip2" "logz" = ("l.bz2", some "bzip2")
    ∧ apply_compression_mode "bzip2" "{base}_{time}.tar.gz"
        = ("{base}_{time}.tar.bz2", some "bzip2")
    ∧ apply_compression_mode "lzip" "{base}_{time}.tar.gz"
        = ("{base}_{time}.tar.lz", some "lzip")
    ∧ apply_compression_mode "xz" "{base}_{time}.tar.gz"
        = ("{base}_{time}.tar.xz", some "xz")
    ∧ reSubAnyGz ".bz2" (String.mk [c, 'g', 'z']) = ".bz2"
    ∧ reSubAnyGz ".bz2" (String.mk ['\n', 'g', 'z']) = String.mk ['\n', 'g', 'z'] := by
  refine ⟨rfl, by decide, by decide, by decide, by decide, ?_, by decide⟩
  simp [reSubAnyGz, goSub, h]

/-- Witness for C9 at a concrete template and a concrete non-newline
character. -/
theorem c9_witness :
    apply_compression_mode "gzip" "site.gz" = ("site.gz", none)
    ∧ apply_compression_mode "bzip2" "logz" = ("l.bz2", some "bzip2")
    ∧ apply_compression_mode "bzip2" "{base}_{time}.tar.gz"
        = ("{base}_{time}.tar.bz2", some "bzip2")
    ∧ apply_compression_mode "lzip" "{base}_{time}.tar.gz"
        = ("{base}_{time}.tar.lz", some "lzip")
    ∧ apply_compression_mode "xz" "{base}_{time}.tar.gz"
        = ("{base}_{time}.tar.xz", some "xz")
    ∧ reSubAnyGz ".bz2" (String.mk ['o', 'g', 'z']) = ".bz2"
    ∧ reSubAnyGz ".bz2" (String.mk ['\n', 'g', 'z']) = String.mk ['\n', 'g', 'z'] :=
  c9_gz_rewrite "site.gz" 'o' (by decide)
